import Mathlib

/-!
# Verification of the FilterStore core (client-side filter/sort/search/pagination layer)

Shallow embedding of the central `FilterStore` class (`src/unnamed/part_000`),
of the pagination slicing replicated by its consumers (`src/DisplayGrid.tsx`,
`src/unnamed/part_002`), and of the range-filter widget's apply/bounds logic
(`src/RangeSliderFilterStore_1.tsx`).

Modelling conventions:
* JS numbers are modelled exactly as fractions `JNum` (integer numerator over a
  decimal-power denominator, compared by cross-multiplication): every number
  reaching a comparison in the embedded code is the exact value of a decimal
  literal, and none of the verified behaviours depends on IEEE-754 rounding.
* JS `null` and `undefined` are collapsed into one value `JVal.null`: every
  line of the embedded source treats them identically
  (`value === null || value === undefined`, `a === undefined || a === null`).
* Raw item field values in this repository are DOM `textContent` strings
  (see the Broadcaster's `data[key] = layer.textContent || ""`), so field
  values are strings or absent.
* The NFD diacritic stripping of `normalizeText` only affects non-ASCII input
  and is modelled as the identity; `toLowerCase` is `String.toLower`.
* JS object identity (`===` between objects) is modelled by a `ref : ℕ` tag
  allocated from a monotone counter: a freshly built object gets a fresh tag,
  a passed-through object keeps its tag.
* `sessionStorage` is modelled as a total association list (the source wraps
  every access in `try`/`catch` and ignores failures; in-memory behaviour is
  unaffected by storage failure, so the non-failing model is faithful for the
  in-memory and key-presence properties proved here).
* `localeCompare` and `new Date(x).getTime() || 0` are taken as parameters of
  the comparator: the verified properties hold for every instantiation. Where
  the store itself needs them they are instantiated with concrete defaults
  (no claim depends on the collation or the date grammar).
* `Array.prototype.sort` guarantees a stable sort consistent with the
  comparator; it is modelled by the stable `List.insertionSort`.
-/

/-! ## Exact JS numbers -/

/-- A JS number, represented exactly as `num / den`. All numbers built by the
embedded code have `den = 10 ^ k`. Value comparisons go through
cross-multiplication (`JNum.le`, `JNum.beq`), never representation equality. -/
structure JNum where
  num : ℤ
  den : ℕ
deriving DecidableEq, Repr

/-- Numeric `a <= b`. -/
def JNum.le (a b : JNum) : Bool := a.num * (b.den : ℤ) ≤ b.num * (a.den : ℤ)

/-- Numeric `a === b` on numbers. -/
def JNum.beq (a b : JNum) : Bool := a.num * (b.den : ℤ) == b.num * (a.den : ℤ)

/-- Numeric `a - b`. -/
def JNum.sub (a b : JNum) : JNum :=
  ⟨a.num * (b.den : ℤ) - b.num * (a.den : ℤ), a.den * b.den⟩

/-- Numeric negation. -/
def JNum.neg (a : JNum) : JNum := ⟨-a.num, a.den⟩

def JNum.ofN (n : ℕ) : JNum := ⟨n, 1⟩

def JNum.ofZ (z : ℤ) : JNum := ⟨z, 1⟩

/-- Binary `Math.min`. -/
def JNum.minJ (a b : JNum) : JNum := if JNum.le a b then a else b

/-- Binary `Math.max`. -/
def JNum.maxJ (a b : JNum) : JNum := if JNum.le a b then b else a

/-- A JS value as it reaches the store's predicates from an item field:
a string, or `null`/`undefined` (collapsed, see the module docstring). -/
inductive JVal where
  | null : JVal
  | str (s : String) : JVal
deriving DecidableEq, Repr

/-- JS `String(x)` for the values above (`String(null) = "null"`,
`String(undefined) = "undefined"`; both only feed the numeric stripper,
which erases every character of either spelling, so one spelling suffices). -/
def JVal.toStr : JVal → String
  | .null => "null"
  | .str s => s

/-- A stored filter value: a multi-select option list or a numeric range
`[min, max]` (the two shapes the widgets put into `activeFilters`). -/
inductive FilterVal where
  | multi (opts : List String) : FilterVal
  | range (lo hi : JNum) : FilterVal
deriving DecidableEq, Repr

inductive Dir where
  | asc : Dir
  | desc : Dir
deriving DecidableEq, Repr

inductive SType where
  | str : SType
  | number : SType
  | date : SType
deriving DecidableEq, Repr

inductive PMode where
  | pagination : PMode
  | loadMore : PMode
  | autoScroll : PMode
deriving DecidableEq, Repr

structure SortConfig where
  field : Option String
  direction : Dir
  type : SType
deriving DecidableEq, Repr

structure Pagination where
  currentPage : ℕ
  itemsPerPage : ℕ
  totalItems : ℕ
  isEnabled : Bool
  mode : PMode
  persistPage : Bool
deriving DecidableEq, Repr

/-- An item record. `ref` is the object-identity tag (see module docstring);
`fields` are the non-underscore string fields; `processed`, `searchIndex`,
`multiIndex` model `_processed`, `_searchIndex`, `_multiIndex`; `idx`
models `_index || 0`. -/
structure Item where
  ref : ℕ
  fields : List (String × String)
  processed : Bool
  searchIndex : String
  multiIndex : List (String × List String)
  idx : ℕ
deriving DecidableEq, Repr

/-! ## String helpers -/

/-- Substring containment, JS `String.prototype.includes`. -/
def strContainsSub (hay needle : String) : Bool :=
  (List.range (hay.data.length + 1)).any
    (fun i => needle.data.isPrefixOf (hay.data.drop i))

/-- Source `String(x).replace(/[^0-9.-]/g, "")` — keep only digits, dot, minus
(`FilterStore.checkSliderMatch`, `FilterStore.compareValues`). -/
def stripNonNumeric (s : String) : String :=
  ⟨s.data.filter (fun c => c.isDigit || c == '.' || c == '-')⟩

/-- Numeric value of a digit list read left to right. -/
def digitsVal (l : List Char) : ℕ :=
  l.foldl (fun acc c => 10 * acc + (c.toNat - '0'.toNat)) 0

/-- JS `parseFloat` on the inputs reachable here (strings over digits, `.`,
`-`, `,` after one of the strippers; `+` kept for completeness). Parses the
longest prefix `[+-]? (Digits | Digits '.' Digits? | '.' Digits)`; no valid
prefix → `NaN`, modelled as `none`. The exponent clause of `parseFloat` is
unreachable: `e`/`E` never survive the stripping. -/
def jparseFloat (s : String) : Option JNum :=
  let step : ℤ → List Char → Option JNum := fun sign cs =>
    let d1 := cs.takeWhile Char.isDigit
    let rest := cs.dropWhile Char.isDigit
    match rest with
    | '.' :: r2 =>
      let d2 := r2.takeWhile Char.isDigit
      if d1.isEmpty && d2.isEmpty then none
      else some ⟨sign * ((digitsVal d1 : ℤ) * (10 ^ d2.length : ℕ) + (digitsVal d2 : ℤ)),
                 10 ^ d2.length⟩
    | _ => if d1.isEmpty then none else some ⟨sign * (digitsVal d1 : ℤ), 1⟩
  match s.data with
  | '-' :: cs => step (-1) cs
  | '+' :: cs => step 1 cs
  | cs => step 1 cs

/-- Source `FilterStore.normalizeText`: `toLowerCase().normalize("NFD")` with
combining marks removed; the mark removal only affects non-ASCII input and is
modelled as the identity. -/
def normalizeText (s : String) : String := s.toLower

/-! ## JS `Map` / key-value storage as insertion-ordered association lists
(`Map.set` updates in place or appends; `Map.delete` removes; iteration is
insertion order; `sessionStorage` has the same shape with string values). -/

def mapSet {α : Type} (m : List (String × α)) (k : String) (v : α) :
    List (String × α) :=
  if m.any (fun p => p.1 == k) then
    m.map (fun p => if p.1 == k then (k, v) else p)
  else m ++ [(k, v)]

def mapDelete {α : Type} (m : List (String × α)) (k : String) :
    List (String × α) :=
  m.filter (fun p => !(p.1 == k))

def mapGet {α : Type} (m : List (String × α)) (k : String) : Option α :=
  (m.find? (fun p => p.1 == k)).map (·.2)

/-! ## Predicate engine (`FilterStore.checkMultiMatch`, `checkSliderMatch`,
`compareValues`) -/

/-- Source `FilterStore.checkMultiMatch`. Here `itemValues` is
`item._multiIndex[filter.layerName]` (`none` models `undefined`). -/
def checkMultiMatch (filterValues : List String) (itemValues : Option (List String)) :
    Bool :=
  if filterValues.isEmpty then true
  else
    match itemValues with
    | none => false
    | some vals =>
      filterValues.any (fun opt =>
        let optLower := opt.toLower
        vals.contains optLower || vals.any (fun itemOpt => strContainsSub itemOpt optLower))

/-- Source `FilterStore.checkSliderMatch`: strip to digits/dot/minus,
`parseFloat`, `NaN` never matches, else closed-interval test
`val >= min && val <= max`. -/
def checkSliderMatch (filterRange : JNum × JNum) (itemValue : JVal) : Bool :=
  match jparseFloat (stripNonNumeric itemValue.toStr) with
  | none => false
  | some val => JNum.le filterRange.1 val && JNum.le val filterRange.2

/-- The numeric coercion of `FilterStore.compareValues`'s `"number"` branch:
`parseFloat(String(a).replace(/[^0-9.-]/g, "")) || 0` (item field values in
this repository are never JS numbers, so the `typeof a === "number"` arm of
the source collapses). -/
def toNumber (v : JVal) : JNum :=
  (jparseFloat (stripNonNumeric v.toStr)).getD (JNum.ofN 0)

/-- Source `FilterStore.compareValues`. Parameter `lc` models `localeCompare`,
`dateP` models `new Date(x).getTime() || 0`; the verified properties hold for
every instantiation of either. -/
def compareValues (lc : String → String → ℤ) (dateP : String → JNum)
    (a b : JVal) (type : SType) (direction : Dir) : JNum :=
  if a = JVal.null then JNum.ofN 1
  else if b = JVal.null then JNum.ofZ (-1)
  else
    let res : JNum :=
      match type with
      | .number => JNum.sub (toNumber a) (toNumber b)
      | .date => JNum.sub (dateP a.toStr) (dateP b.toStr)
      | .str => JNum.ofZ (lc a.toStr b.toStr)
    match direction with
    | .asc => res
    | .desc => JNum.neg res

/-! ## Store state (`FilterStore.state` plus the private batching flags and
the identity-tag allocator) -/

structure Store where
  activeFilters : List (String × FilterVal)
  searchQuery : String
  sortConfig : SortConfig
  items : List Item
  filteredItems : List Item
  pagination : Pagination
  isBatching : Bool
  pendingNotify : Bool
  nextRef : ℕ
deriving DecidableEq, Repr

/-- The initial `FilterStore.state` (constructor defaults). -/
def initialStore : Store :=
  { activeFilters := []
    searchQuery := ""
    sortConfig := ⟨none, .asc, .str⟩
    items := []
    filteredItems := []
    pagination := ⟨1, 12, 0, true, .pagination, false⟩
    isBatching := false
    pendingNotify := false
    nextRef := 0 }

/-- The content of a delivered notification snapshot (the fields of
`FilterState`; the private flags are not part of `this.state`). -/
structure Snapshot where
  activeFilters : List (String × FilterVal)
  searchQuery : String
  sortConfig : SortConfig
  items : List Item
  filteredItems : List Item
  pagination : Pagination
deriving DecidableEq, Repr

def mkSnapshot (s : Store) : Snapshot :=
  ⟨s.activeFilters, s.searchQuery, s.sortConfig, s.items, s.filteredItems, s.pagination⟩

/-- A world: the store, the session storage, and the chronological list of
delivered notifications. -/
structure W where
  store : Store
  storage : List (String × String)
  notifs : List Snapshot
deriving DecidableEq, Repr

def storageGet (σ : List (String × String)) (k : String) : Option String :=
  mapGet σ k

/-! Simple renderings standing in for `JSON.stringify` when the store persists
state; only the presence or absence of keys is observed by any claim. -/

def encodeJNum (q : JNum) : String := toString q.num ++ "/" ++ toString q.den

def encodeFilterVal : FilterVal → String
  | .multi opts => "[" ++ String.intercalate "," opts ++ "]"
  | .range lo hi => "[" ++ encodeJNum lo ++ "," ++ encodeJNum hi ++ "]"

def encodeFilters (m : List (String × FilterVal)) : String :=
  String.intercalate ";" (m.map (fun p => p.1 ++ ":" ++ encodeFilterVal p.2))

def encodeSort (sc : SortConfig) : String :=
  (sc.field.getD "null") ++ "|" ++
    (match sc.direction with | .asc => "asc" | .desc => "desc") ++ "|" ++
    (match sc.type with | .str => "string" | .number => "number" | .date => "date")

/-- Source `FilterStore.notify`: while batching only raise the pending flag;
otherwise build the snapshot, persist filters, search, sort (and the page when
`persistPage`), then deliver the snapshot to the listeners. -/
def notify (w : W) : W :=
  if w.store.isBatching then
    { w with store := { w.store with pendingNotify := true } }
  else
    let snapshot := mkSnapshot w.store
    let σ := mapSet w.storage "broadcast_active_filters" (encodeFilters w.store.activeFilters)
    let σ := mapSet σ "broadcast_search_query" w.store.searchQuery
    let σ := mapSet σ "broadcast_sort_config" (encodeSort w.store.sortConfig)
    let σ := if w.store.pagination.persistPage then
               mapSet σ "broadcast_current_page" (toString w.store.pagination.currentPage)
             else σ
    { w with storage := σ, notifs := w.notifs ++ [snapshot] }

/-! ## Recomputation pipeline (`FilterStore.applyFilters`) -/

/-- Filter-key classification precomputed once per pass (`applyFilters`
step 1): the `filter_multi_` / `filter_slider_` prefix flags and the layer
name with the prefix stripped (`key.replace` with the anchored regex). -/
structure CompiledFilter where
  key : String
  value : FilterVal
  isMulti : Bool
  isSlider : Bool
  layerName : String
deriving DecidableEq, Repr

def layerNameOf (key : String) : String :=
  if key.startsWith "filter_multi_" then key.drop 13
  else if key.startsWith "filter_slider_" then key.drop 14
  else key

def compileFilters (m : List (String × FilterVal)) : List CompiledFilter :=
  m.map (fun p =>
    { key := p.1
      value := p.2
      isMulti := p.1.startsWith "filter_multi_"
      isSlider := p.1.startsWith "filter_slider_"
      layerName := layerNameOf p.1 })

/-- Field access `item[layerName]` (`undefined` → `JVal.null`). -/
def fieldJVal (item : Item) (k : String) : JVal :=
  match mapGet item.fields k with
  | none => .null
  | some s => .str s

/-- Access `item._multiIndex[layerName]` (`none` models `undefined`). -/
def multiIndexOf (item : Item) (k : String) : Option (List String) :=
  mapGet item.multiIndex k

/-- One compiled filter applied to one item (the body of the `for` loop in
`applyFilters`): multi keys use `checkMultiMatch`, slider keys use
`checkSliderMatch`, any other key imposes no constraint. A value whose shape
disagrees with its key kind is unreachable for the widgets (multi keys always
carry option arrays, slider keys always carry `[min, max]`); the JS would
throw on such an entry and the model makes it never match. -/
def filterPasses (f : CompiledFilter) (item : Item) : Bool :=
  if f.isMulti then
    match f.value with
    | .multi opts => checkMultiMatch opts (multiIndexOf item f.layerName)
    | .range _ _ => false
  else if f.isSlider then
    match f.value with
    | .range lo hi => checkSliderMatch (lo, hi) (fieldJVal item f.layerName)
    | .multi _ => false
  else true

/-- Concrete stand-in for `localeCompare` used where the store itself sorts
(no claim depends on the collation). -/
def lcDefault (a b : String) : ℤ := if a < b then -1 else if a = b then 0 else 1

/-- Concrete stand-in for `new Date(x).getTime() || 0` used where the store
itself sorts (no claim depends on the date grammar). -/
def datePDefault (_ : String) : JNum := JNum.ofN 0

/-- Step 3 of `applyFilters`: `result.sort(...)` with `compareValues` when a
sort field is set, else by `(a._index || 0) - (b._index || 0)`. -/
def sortItems (sc : SortConfig) (l : List Item) : List Item :=
  match sc.field with
  | some f =>
    List.insertionSort
      (fun a b =>
        JNum.le (compareValues lcDefault datePDefault (fieldJVal a f) (fieldJVal b f)
                  sc.type sc.direction) (JNum.ofN 0))
      l
  | none => List.insertionSort (fun a b => a.idx ≤ b.idx) l

/-- Steps 1–3 of `FilterStore.applyFilters`: the combined filter+search pass
over `items` followed by the sort. -/
def applyFiltersPure (s : Store) : List Item :=
  let filters := compileFilters s.activeFilters
  let hasSearch := s.searchQuery.length > 0
  let normalizedQuery := if hasSearch then normalizeText s.searchQuery else ""
  let searchTerms := if hasSearch then (normalizedQuery.splitOn " ").filter (· ≠ "") else []
  let result := s.items.filter (fun item =>
    filters.all (fun f => filterPasses f item) &&
    (!hasSearch || searchTerms.all (fun t => strContainsSub item.searchIndex t)))
  sortItems s.sortConfig result

/-- Source `FilterStore.applyFilters`: recompute, publish `filteredItems` and
`totalItems`, then `notify`. -/
def applyFilters (w : W) : W :=
  let result := applyFiltersPure w.store
  notify { w with store :=
    { w.store with
        filteredItems := result
        pagination := { w.store.pagination with totalItems := result.length } } }

/-! ## Mutators -/

/-- Source `FilterStore.updateStoragePage`. -/
def updateStoragePage (σ : List (String × String)) (page : ℕ) : List (String × String) :=
  mapSet σ "broadcast_current_page" (toString page)

/-- Source `FilterStore.setFilter`: `null`/`undefined` (`none`) or an empty
array delete the key, anything else sets it; reset to page 1 unless
suppressed; recompute. -/
def setFilter (w : W) (key : String) (value : Option FilterVal)
    (preventPageReset : Bool) : W :=
  let s := w.store
  let af := match value with
    | none => mapDelete s.activeFilters key
    | some (.multi []) => mapDelete s.activeFilters key
    | some v => mapSet s.activeFilters key v
  let s := { s with activeFilters := af }
  let (s, σ) :=
    if !preventPageReset then
      ({ s with pagination := { s.pagination with currentPage := 1 } },
       updateStoragePage w.storage 1)
    else (s, w.storage)
  applyFilters { store := s, storage := σ, notifs := w.notifs }

/-- Source `FilterStore.removeFilter`. -/
def removeFilter (w : W) (key : String) (preventPageReset : Bool) : W :=
  let s := { w.store with activeFilters := mapDelete w.store.activeFilters key }
  let (s, σ) :=
    if !preventPageReset then
      ({ s with pagination := { s.pagination with currentPage := 1 } },
       updateStoragePage w.storage 1)
    else (s, w.storage)
  applyFilters { store := s, storage := σ, notifs := w.notifs }

/-- Source `FilterStore.setSearch`. -/
def setSearch (w : W) (query : String) (preventPageReset : Bool) : W :=
  let s := { w.store with searchQuery := query }
  let (s, σ) :=
    if !preventPageReset then
      ({ s with pagination := { s.pagination with currentPage := 1 } },
       updateStoragePage w.storage 1)
    else (s, w.storage)
  applyFilters { store := s, storage := σ, notifs := w.notifs }

/-- Source `FilterStore.setSort` (always resets to page 1). -/
def setSort (w : W) (field : Option String) (direction : Dir) (type : SType) : W :=
  let s := { w.store with
    sortConfig := ⟨field, direction, type⟩
    pagination := { w.store.pagination with currentPage := 1 } }
  applyFilters { store := s, storage := updateStoragePage w.storage 1, notifs := w.notifs }

/-- Source `FilterStore.setPage` (notify only, no recomputation). -/
def setPage (w : W) (page : ℕ) : W :=
  let s := { w.store with pagination := { w.store.pagination with currentPage := page } }
  let σ := if s.pagination.persistPage then updateStoragePage w.storage page else w.storage
  notify { store := s, storage := σ, notifs := w.notifs }

/-- Source `FilterStore.resetFilters`: clear criteria, page 1 (which writes the
page key), recompute+notify, then remove all four persisted entries. -/
def resetFilters (w : W) : W :=
  let s := { w.store with
    activeFilters := []
    searchQuery := ""
    sortConfig := ⟨none, .asc, .str⟩
    pagination := { w.store.pagination with currentPage := 1 } }
  let w1 := applyFilters { store := s, storage := updateStoragePage w.storage 1,
                           notifs := w.notifs }
  { w1 with storage :=
      mapDelete (mapDelete (mapDelete (mapDelete w1.storage
        "broadcast_active_filters") "broadcast_search_query")
        "broadcast_sort_config") "broadcast_current_page" }

/-! ## Item ingestion (`FilterStore.setItems`) -/

/-- The per-item normalization inside `setItems`: an already-processed item is
passed through by reference; otherwise a fresh object (fresh identity tag) is
built with `_processed`, `_searchIndex` and `_multiIndex`. -/
def processItem (item : Item) (nextRef : ℕ) : Item × ℕ :=
  if item.processed then (item, nextRef)
  else
    ({ ref := nextRef
       fields := item.fields
       processed := true
       searchIndex := String.intercalate " " (item.fields.map (fun p => normalizeText p.2))
       multiIndex := item.fields.map (fun p =>
         (p.1, ((p.2.toLower.splitOn ",").map String.trim).filter (· ≠ "")))
       idx := item.idx }, nextRef + 1)

def processList : List Item → ℕ → List Item × ℕ
  | [], n => ([], n)
  | i :: rest, n =>
    let (i', n') := processItem i n
    let (rest', n'') := processList rest n'
    (i' :: rest', n'')

/-- Source `FilterStore.setItems`: normalize, then skip entirely when the
processed list is `===`-identical elementwise (and in length) to the stored
one, else store and recompute. -/
def setItems (w : W) (items : List Item) : W :=
  let pr := processList items w.store.nextRef
  let s := { w.store with nextRef := pr.2 }
  if pr.1.length == s.items.length &&
     (pr.1.zip s.items).all (fun p => p.1.ref == p.2.ref) then
    { w with store := s }
  else
    applyFilters { w with store := { s with items := pr.1 } }

/-! ## Batching (`FilterStore.batch`) over mutation scripts

A JS callback passed to `batch` is modelled as a list of commands; `throwC`
models a callback that raises at that point. `runCmd`/`runCmds` return the
world and whether an exception is propagating. -/

inductive Cmd where
  | setF (k : String) (v : Option FilterVal) (p : Bool) : Cmd
  | removeF (k : String) (p : Bool) : Cmd
  | searchC (q : String) (p : Bool) : Cmd
  | sortC (f : Option String) (d : Dir) (t : SType) : Cmd
  | resetC : Cmd
  | pageC (n : ℕ) : Cmd
  | itemsC (l : List Item) : Cmd
  | batchC (cs : List Cmd) : Cmd
  | throwC : Cmd

mutual

/-- One command. `batchC` is the source `FilterStore.batch`: raise the flag,
run the body, and in the `finally` clear the flag and flush a pending notify —
whether or not the body threw; an exception then keeps propagating. -/
def runCmd : Cmd → W → W × Bool
  | .setF k v p, w => (setFilter w k v p, false)
  | .removeF k p, w => (removeFilter w k p, false)
  | .searchC q p, w => (setSearch w q p, false)
  | .sortC f d t, w => (setSort w f d t, false)
  | .resetC, w => (resetFilters w, false)
  | .pageC n, w => (setPage w n, false)
  | .itemsC l, w => (setItems w l, false)
  | .throwC, w => (w, true)
  | .batchC cs, w =>
    let w1 := { w with store := { w.store with isBatching := true } }
    let r := runCmds cs w1
    let w3 := { r.1 with store := { r.1.store with isBatching := false } }
    let w4 := if w3.store.pendingNotify then
                notify { w3 with store := { w3.store with pendingNotify := false } }
              else w3
    (w4, r.2)

/-- A command sequence; an exception aborts the remainder. -/
def runCmds : List Cmd → W → W × Bool
  | [], w => (w, false)
  | c :: cs, w =>
    let r := runCmd c w
    if r.2 then (r.1, true) else runCmds cs r.1

end

/-! ## Pagination slicer (`DisplayGrid.handleStoreUpdate`, duplicated in the
Broadcaster's `updateUI`) -/

/-- JS `Array.prototype.slice(start, end)` including the negative-index wrap
and the clamping to `[0, length]`. -/
def jsSlice {α : Type} (l : List α) (start stop : ℤ) : List α :=
  let len : ℤ := l.length
  let s := if start < 0 then max (len + start) 0 else min start len
  let e := if stop < 0 then max (len + stop) 0 else min stop len
  (l.take e.toNat).drop s.toNat

/-- The pagination slice computed by each consumer from a snapshot
(`DisplayGrid.handleStoreUpdate` lines 55–69; the Broadcaster's `updateUI`
repeats it verbatim): window for mode `pagination`, prefix for `loadMore` /
`autoScroll`, identity when pagination is disabled. -/
def sliceItems {α : Type} (filteredItems : List α) (p : Pagination) : List α :=
  if p.isEnabled then
    match p.mode with
    | .pagination =>
      let start : ℤ := ((p.currentPage : ℤ) - 1) * (p.itemsPerPage : ℤ)
      jsSlice filteredItems start (start + (p.itemsPerPage : ℤ))
    | .loadMore => jsSlice filteredItems 0 ((p.currentPage : ℤ) * (p.itemsPerPage : ℤ))
    | .autoScroll => jsSlice filteredItems 0 ((p.currentPage : ℤ) * (p.itemsPerPage : ℤ))
  else filteredItems

/-- Modelled from the spec: the slicer as §4.6 words it — mode `pagination`
yields the window `[(currentPage-1)*itemsPerPage, currentPage*itemsPerPage)`,
modes `loadMore`/`autoScroll` the prefix `[0, currentPage*itemsPerPage)`,
disabled pagination the identity. Stated to be compared with `sliceItems`. -/
def specSlice {α : Type} (l : List α) (p : Pagination) : List α :=
  if p.isEnabled then
    match p.mode with
    | .pagination =>
      (l.take (p.currentPage * p.itemsPerPage)).drop ((p.currentPage - 1) * p.itemsPerPage)
    | .loadMore => l.take (p.currentPage * p.itemsPerPage)
    | .autoScroll => l.take (p.currentPage * p.itemsPerPage)
  else l

/-! ## Range-filter widget (`src/RangeSliderFilterStore_1.tsx`) -/

/-- The widget's value cleaning: `String(rawVal).replace(/[^0-9.,-]/g, "")
.replace(",", ".")` — keep digits, dot, comma, minus, then replace only the
FIRST comma by a dot (no `/g` flag on the second replace). -/
def replaceFirstComma : List Char → List Char
  | [] => []
  | c :: cs => if c == ',' then '.' :: cs else c :: replaceFirstComma cs

def widgetClean (s : String) : String :=
  ⟨replaceFirstComma (s.data.filter
    (fun c => c.isDigit || c == '.' || c == ',' || c == '-'))⟩

/-- The widget's data-bounds scan (`initialBounds` / `handleStoreUpdate`):
collect the parsable cleaned values of `item[layerKey]` over all items
(a falsy raw value — absent or empty string — is skipped), and take
`Math.min`/`Math.max`; with no parsable value the bounds default to
`[0, 100]` (the `initialBounds` fallback). -/
def dataBounds (items : List Item) (layerKey : String) : JNum × JNum :=
  let values := items.filterMap (fun item =>
    match mapGet item.fields layerKey with
    | none => none
    | some "" => none
    | some raw => jparseFloat (widgetClean raw))
  match values with
  | [] => (JNum.ofN 0, JNum.ofN 100)
  | v :: vs => (vs.foldl JNum.minJ v, vs.foldl JNum.maxJ v)

/-- The store-facing effect of the widget's `handleApply`: a selection equal
to the data bounds removes the filter (and its persisted entry), any other
selection sets `[minVal, maxVal]` (and persists it). The widget's local
React state is out of scope. -/
def handleApply (w : W) (filterKey : String) (minVal maxVal dataMin dataMax : JNum)
    (persistState : Bool) : W :=
  if JNum.beq minVal dataMin && JNum.beq maxVal dataMax then
    let w1 := removeFilter w filterKey false
    if persistState then { w1 with storage := mapDelete w1.storage filterKey } else w1
  else
    let w1 := setFilter w filterKey (some (.range minVal maxVal)) false
    let enc := encodeFilterVal (.range minVal maxVal)
    if persistState then { w1 with storage := mapSet w1.storage filterKey enc }
    else w1

/-! ## Spec-modelled definitions used to state refinement/divergence -/

/-- Modelled from the spec (claim C5's words): strip all characters except
digits, dot, minus, and comma; normalize comma to dot; parse as float. -/
def specRangeValue (raw : String) : Option JNum :=
  jparseFloat ⟨(raw.data.filter
    (fun c => c.isDigit || c == '.' || c == '-' || c == ',')).map
    (fun c => if c == ',' then '.' else c)⟩

/-- Modelled from the spec (claim C5): match iff the normalized parsed value
lies in the closed interval; unparsable never matches. -/
def specRangeMatch (mn mx : JNum) (raw : String) : Bool :=
  match specRangeValue raw with
  | none => false
  | some v => JNum.le mn v && JNum.le v mx

/-- The amended range predicate in the spec's own vocabulary: keep only
digits, dot and minus (commas are stripped, not normalized), parse as float,
match iff `min ≤ value ≤ max`, unparsable never matches. Stated to be
compared with `checkSliderMatch`. -/
def specRangeMatchAmended (mn mx : JNum) (raw : String) : Bool :=
  match jparseFloat ⟨raw.data.filter
      (fun c => ('0' ≤ c && c ≤ '9') || c == '.' || c == '-')⟩ with
  | none => false
  | some v => JNum.le mn v && JNum.le v mx

/-! ## Reference model for snapshot aliasing (claim C1)

Container identity is what claim C1 is about, so here the four mutable
containers of `FilterState` live in an explicit heap and the state holds
references into it. `subscribe` (line 111 of the store source) delivers
`{ ...this.state }` — a fresh outer object whose container fields are the
SAME references; `notify` (lines 140–147) builds
`{ ...state, activeFilters: new Map(...), pagination: {...}, sortConfig:
{...}, items: state.items, filteredItems: [...state.filteredItems] }` —
fresh references holding copies for the four containers, with the items
array shared. Mutating a delivered snapshot's container is a heap write
through the snapshot's reference. -/

namespace RefModel

/-- `FilterState` with its four mutable containers as heap references. -/
structure StoreState where
  activeFilters : ℕ
  searchQuery : String
  sortConfig : ℕ
  items : List Item
  filteredItems : ℕ
  pagination : ℕ
deriving DecidableEq, Repr

structure Heap where
  maps : List (List (String × FilterVal))
  sorts : List SortConfig
  arrs : List (List Item)
  pags : List Pagination
deriving DecidableEq, Repr

def defaultSort : SortConfig := ⟨none, .asc, .str⟩

def defaultPag : Pagination := ⟨1, 12, 0, true, .pagination, false⟩

def readMap (h : Heap) (r : ℕ) : List (String × FilterVal) := h.maps.getD r []

def readSort (h : Heap) (r : ℕ) : SortConfig := h.sorts.getD r defaultSort

def readArr (h : Heap) (r : ℕ) : List Item := h.arrs.getD r []

def readPag (h : Heap) (r : ℕ) : Pagination := h.pags.getD r defaultPag

def writeMap (h : Heap) (r : ℕ) (v : List (String × FilterVal)) : Heap :=
  { h with maps := h.maps.set r v }

def writeSort (h : Heap) (r : ℕ) (v : SortConfig) : Heap :=
  { h with sorts := h.sorts.set r v }

def writeArr (h : Heap) (r : ℕ) (v : List Item) : Heap :=
  { h with arrs := h.arrs.set r v }

def writePag (h : Heap) (r : ℕ) (v : Pagination) : Heap :=
  { h with pags := h.pags.set r v }

/-- The snapshot delivered synchronously inside `subscribe`:
`listener({ ...this.state })` — the spread copies the container REFERENCES. -/
def subscribeSnapshot (st : StoreState) : StoreState := st

/-- The snapshot built by `notify`: fresh heap cells holding copies of the
store's four containers (the items array reference is shared by design). -/
def notifySnapshot (st : StoreState) (h : Heap) : StoreState × Heap :=
  ({ activeFilters := h.maps.length
     searchQuery := st.searchQuery
     sortConfig := h.sorts.length
     items := st.items
     filteredItems := h.arrs.length
     pagination := h.pags.length },
   { maps := h.maps ++ [readMap h st.activeFilters]
     sorts := h.sorts ++ [readSort h st.sortConfig]
     arrs := h.arrs ++ [readArr h st.filteredItems]
     pags := h.pags ++ [readPag h st.pagination] })

/-- A concrete store whose four containers are heap cells 0. -/
def st0 : StoreState := ⟨0, "", 0, [], 0, 0⟩

/-- The matching one-cell-per-kind heap (all containers at their defaults). -/
def h0 : Heap := ⟨[[]], [defaultSort], [[]], [defaultPag]⟩

end RefModel

/-! ## Remaining definitions: the flat-mutator fragment for batching claims,
and named concrete inputs used by counterexamples and witnesses -/

/-- The commands that map to one plain store mutator call: each of these runs
exactly one `notify` request per call (`setItems` is excluded because its
identity short-circuit may skip the recomputation, and nested `batch` /
throwing callbacks are what the batching claims quantify over). -/
def plainMutator : Cmd → Bool
  | .setF _ _ _ => true
  | .removeF _ _ => true
  | .searchC _ _ => true
  | .sortC _ _ _ => true
  | .resetC => true
  | .pageC _ => true
  | .itemsC _ => false
  | .batchC _ => false
  | .throwC => false

/-- A fresh world: pristine store, empty storage, no notifications yet. -/
def initialW : W := ⟨initialStore, [], []⟩

/-- A raw (not yet normalized) item as a caller would pass it to `setItems`;
its identity tag is disjoint from anything the allocator will hand out in the
runs below. -/
def rawItem : Item := ⟨100, [("color", "red")], false, "", [], 0⟩

/-- The normalized form of `rawItem` as `setItems` stores it (identity tag 5
chosen arbitrarily). -/
def procItem : Item := ⟨5, [("color", "red")], true, "red", [("color", ["red"])], 0⟩

/-- A world already holding the processed item. -/
def wProc : W := ⟨{ initialStore with items := [procItem] }, [], []⟩

/-- Two processed items whose `price` fields span exactly `[0, 100]`. -/
def priceItem0 : Item := ⟨1, [("price", "0")], true, "0", [("price", ["0"])], 0⟩

def priceItem100 : Item := ⟨2, [("price", "100")], true, "100", [("price", ["100"])], 1⟩

/-- A world holding the two price items. -/
def wPrice : W := ⟨{ initialStore with items := [priceItem0, priceItem100] }, [], []⟩

/-! # Theorems

Shared helper lemmas first, then one main theorem per claim (with its
counterexample and witness where required). -/

theorem mapGet_nil {α : Type} (k : String) : mapGet ([] : List (String × α)) k = none := rfl

theorem mapGet_cons {α : Type} (a : String × α) (m : List (String × α)) (k : String) :
    mapGet (a :: m) k = if a.1 == k then some a.2 else mapGet m k := by
  simp only [mapGet, List.find?]
  rcases h : (a.1 == k) with _ | _ <;> simp [h]

theorem mapDelete_cons {α : Type} (a : String × α) (m : List (String × α)) (k : String) :
    mapDelete (a :: m) k = if a.1 == k then mapDelete m k else a :: mapDelete m k := by
  simp only [mapDelete, List.filter]
  rcases h : (a.1 == k) with _ | _ <;> simp [h]

theorem mapGet_mapDelete_self {α : Type} (m : List (String × α)) (k : String) :
    mapGet (mapDelete m k) k = none := by
  induction m with
  | nil => rfl
  | cons a m ih =>
    rw [mapDelete_cons]
    rcases h : (a.1 == k) with _ | _
    · simp [h, mapGet_cons, ih]
    · simp [h, ih]

theorem mapGet_mapDelete_ne {α : Type} (m : List (String × α)) (k k' : String)
    (h : (k' == k) = false) : mapGet (mapDelete m k') k = mapGet m k := by
  induction m with
  | nil => rfl
  | cons a m ih =>
    rw [mapDelete_cons, mapGet_cons]
    rcases ha : (a.1 == k') with _ | _
    · simp [mapGet_cons, ha, ih]
    · have : (a.1 == k) = false := by
        have h1 : a.1 = k' := by simpa using ha
        subst h1; exact h
      simp [this, ih]

/-! Projection lemmas: `notify` and `applyFilters` never change the criteria
fields, the current page, the items, or the batching flag. -/

theorem notify_activeFilters (w : W) : (notify w).store.activeFilters = w.store.activeFilters := by
  unfold notify; split <;> rfl

theorem notify_searchQuery (w : W) : (notify w).store.searchQuery = w.store.searchQuery := by
  unfold notify; split <;> rfl

theorem notify_sortConfig (w : W) : (notify w).store.sortConfig = w.store.sortConfig := by
  unfold notify; split <;> rfl

theorem notify_pagination (w : W) : (notify w).store.pagination = w.store.pagination := by
  unfold notify; split <;> rfl

theorem notify_items (w : W) : (notify w).store.items = w.store.items := by
  unfold notify; split <;> rfl

theorem notify_isBatching (w : W) : (notify w).store.isBatching = w.store.isBatching := by
  unfold notify; split <;> rfl

theorem applyFilters_activeFilters (w : W) :
    (applyFilters w).store.activeFilters = w.store.activeFilters := by
  unfold applyFilters; rw [notify_activeFilters]

theorem applyFilters_searchQuery (w : W) :
    (applyFilters w).store.searchQuery = w.store.searchQuery := by
  unfold applyFilters; rw [notify_searchQuery]

theorem applyFilters_sortConfig (w : W) :
    (applyFilters w).store.sortConfig = w.store.sortConfig := by
  unfold applyFilters; rw [notify_sortConfig]

theorem applyFilters_currentPage (w : W) :
    (applyFilters w).store.pagination.currentPage = w.store.pagination.currentPage := by
  unfold applyFilters; rw [notify_pagination]

theorem applyFilters_isBatching (w : W) :
    (applyFilters w).store.isBatching = w.store.isBatching := by
  unfold applyFilters; rw [notify_isBatching]

/-- Claim C9: `setFilter(k, null)` (or `undefined`) takes exactly the deletion
path of `removeFilter(k)` with the same page-reset flag — the two calls are
one and the same store transition (criteria, page reset, recomputation,
notification, persistence). -/
theorem setFilter_none_eq_removeFilter (w : W) (k : String) (p : Bool) :
    setFilter w k none p = removeFilter w k p := rfl

/-- Claim C7: after `resetFilters()`, from any prior store state: the active
filter map is empty, the search query is `""`, the sort field is `none`, the
current page is 1, and none of the four persisted session entries is present
(the source removes all four after its recompute/notify cycle, so at return
the keys are gone even though `notify` re-persisted the cleared state just
before). -/
theorem resetFilters_complete (w : W) :
    (resetFilters w).store.activeFilters = [] ∧
    (resetFilters w).store.searchQuery = "" ∧
    (resetFilters w).store.sortConfig.field = none ∧
    (resetFilters w).store.pagination.currentPage = 1 ∧
    storageGet (resetFilters w).storage "broadcast_active_filters" = none ∧
    storageGet (resetFilters w).storage "broadcast_search_query" = none ∧
    storageGet (resetFilters w).storage "broadcast_sort_config" = none ∧
    storageGet (resetFilters w).storage "broadcast_current_page" = none := by
  unfold resetFilters
  refine ⟨?_, ?_, ?_, ?_, ?_, ?_, ?_, ?_⟩
  · rw [applyFilters_activeFilters]
  · rw [applyFilters_searchQuery]
  · rw [applyFilters_sortConfig]
  · rw [applyFilters_currentPage]
  · show mapGet _ _ = none
    rw [mapGet_mapDelete_ne _ _ _ (by rfl), mapGet_mapDelete_ne _ _ _ (by rfl),
        mapGet_mapDelete_ne _ _ _ (by rfl), mapGet_mapDelete_self]
  · show mapGet _ _ = none
    rw [mapGet_mapDelete_ne _ _ _ (by rfl), mapGet_mapDelete_ne _ _ _ (by rfl),
        mapGet_mapDelete_self]
  · show mapGet _ _ = none
    rw [mapGet_mapDelete_ne _ _ _ (by rfl), mapGet_mapDelete_self]
  · show mapGet _ _ = none
    rw [mapGet_mapDelete_self]

/-- Claim C6: in `compareValues` a `null`/`undefined` left value compares as
`1` (after the defined value) and a `null`/`undefined` right value as `-1`
(before it), for any direction and type, so missing-field items always order
last; and for two defined values the descending result is the negation of the
ascending result. Holds for every `localeCompare` and date-parse
instantiation. -/
theorem compareValues_nulls_last_and_flip (lc : String → String → ℤ)
    (dateP : String → JNum) (a b : JVal) (ty : SType) (dir : Dir)
    (ha : a ≠ JVal.null) (hb : b ≠ JVal.null) :
    compareValues lc dateP JVal.null b ty dir = JNum.ofN 1 ∧
    compareValues lc dateP a JVal.null ty dir = JNum.ofZ (-1) ∧
    compareValues lc dateP a b ty .desc =
      JNum.neg (compareValues lc dateP a b ty .asc) := by
  refine ⟨rfl, ?_, ?_⟩
  · unfold compareValues
    simp [ha]
  · unfold compareValues
    simp [ha, hb]

/-- Witness for C6 at concrete inputs. -/
theorem compareValues_nulls_last_and_flip_witness :
    (JVal.str "x" ≠ JVal.null) ∧ (JVal.str "y" ≠ JVal.null) ∧
    (compareValues lcDefault datePDefault JVal.null (JVal.str "y") .str .desc = JNum.ofN 1 ∧
     compareValues lcDefault datePDefault (JVal.str "x") JVal.null .str .desc = JNum.ofZ (-1) ∧
     compareValues lcDefault datePDefault (JVal.str "x") (JVal.str "y") .str .desc =
       JNum.neg (compareValues lcDefault datePDefault (JVal.str "x") (JVal.str "y") .str .asc)) :=
  ⟨by decide, by decide,
   compareValues_nulls_last_and_flip lcDefault datePDefault (JVal.str "x") (JVal.str "y")
     .str .desc (by decide) (by decide)⟩

/-- Counterexample to claim C5 as stated: the source's `checkSliderMatch`
strips commas instead of normalizing them to dots. For raw value `"1,5"` and
range `[1, 2]` the code parses `15` and rejects the item, while the claimed
strip-and-normalize rule parses `1.5` and accepts it. -/
theorem checkSliderMatch_comma_counterexample :
    checkSliderMatch (JNum.ofN 1, JNum.ofN 2) (.str "1,5") = false ∧
    specRangeMatch (JNum.ofN 1) (JNum.ofN 2) "1,5" = true := by decide

/-- Claim C5 amended: the range predicate strips all characters except
digits, dot and minus (commas are removed like any other character, not
normalized to dots), parses the rest as a float, never matches an unparsable
value, and otherwise matches iff `min ≤ value ≤ max` with both endpoints
included (checked concretely on the boundaries of `[1, 5]`). -/
theorem checkSliderMatch_amended (mn mx : JNum) (raw : String) :
    checkSliderMatch (mn, mx) (.str raw) = specRangeMatchAmended mn mx raw ∧
    checkSliderMatch (JNum.ofN 1, JNum.ofN 5) (.str "1") = true ∧
    checkSliderMatch (JNum.ofN 1, JNum.ofN 5) (.str "5") = true ∧
    checkSliderMatch (JNum.ofN 1, JNum.ofN 5) (.str "foo") = false :=
  ⟨rfl, by decide, by decide, by decide⟩

/-! Helpers for the slice claim. -/

theorem take_min_length {α : Type} (l : List α) (n : ℕ) :
    l.take (min n l.length) = l.take n := by
  rcases le_total n l.length with h | h
  · rw [min_eq_left h]
  · rw [min_eq_right h, List.take_length, List.take_of_length_le h]

theorem drop_min_length {α : Type} (l l₂ : List α) (h : l₂.length ≤ l.length) (a : ℕ) :
    l₂.drop (min a l.length) = l₂.drop a := by
  rcases le_total a l.length with h' | h'
  · rw [min_eq_left h']
  · rw [min_eq_right h', List.drop_eq_nil_of_le h, List.drop_eq_nil_of_le (le_trans h h')]

theorem jsSlice_ofNat {α : Type} (l : List α) (a b : ℕ) :
    jsSlice l (a : ℤ) (b : ℤ) = (l.take b).drop a := by
  unfold jsSlice
  have ha : ¬((a : ℤ) < 0) := by omega
  have hb : ¬((b : ℤ) < 0) := by omega
  simp only [ha, hb, if_false]
  have hsa : (min (a : ℤ) (l.length : ℤ)).toNat = min a l.length := by
    rw [← Nat.cast_min]; exact Int.toNat_natCast _
  have hsb : (min (b : ℤ) (l.length : ℤ)).toNat = min b l.length := by
    rw [← Nat.cast_min]; exact Int.toNat_natCast _
  rw [hsa, hsb, take_min_length, drop_min_length]
  simp [List.length_take]

/-- Claim C8: the consumers' pagination slice is the pure function the spec
describes — for any filtered list and any pagination state with
`currentPage ≥ 1`: mode `pagination` yields the window
`[(currentPage-1)*itemsPerPage, currentPage*itemsPerPage)`, modes
`loadMore`/`autoScroll` yield the prefix `[0, currentPage*itemsPerPage)`, and
disabled pagination yields all items (`specSlice` is the spec's wording). -/
theorem sliceItems_correct {α : Type} (l : List α) (p : Pagination)
    (h : 1 ≤ p.currentPage) :
    sliceItems l p = specSlice l p := by
  unfold sliceItems specSlice
  rcases hEn : p.isEnabled with _ | _
  · simp
  · simp only [if_true]
    rcases hm : p.mode with _ | _ | _
    · have hc : ((p.currentPage : ℤ) - 1) = ((p.currentPage - 1 : ℕ) : ℤ) := by omega
      have hstart : ((p.currentPage : ℤ) - 1) * (p.itemsPerPage : ℤ) =
          (((p.currentPage - 1) * p.itemsPerPage : ℕ) : ℤ) := by
        rw [hc]; push_cast; ring
      have harith : (p.currentPage - 1) * p.itemsPerPage + p.itemsPerPage =
          p.currentPage * p.itemsPerPage := by
        have h2 : p.currentPage - 1 + 1 = p.currentPage := Nat.succ_pred_eq_of_pos h
        calc (p.currentPage - 1) * p.itemsPerPage + p.itemsPerPage
            = ((p.currentPage - 1) + 1) * p.itemsPerPage := by ring
          _ = p.currentPage * p.itemsPerPage := by rw [h2]
      have hcast : (((p.currentPage - 1) * p.itemsPerPage : ℕ) : ℤ) + (p.itemsPerPage : ℤ) =
          (((p.currentPage - 1) * p.itemsPerPage + p.itemsPerPage : ℕ) : ℤ) := by
        push_cast; ring
      rw [hstart, hcast, jsSlice_ofNat, harith]
    · have h0 : (0 : ℤ) = ((0 : ℕ) : ℤ) := rfl
      have hstop : (p.currentPage : ℤ) * (p.itemsPerPage : ℤ) =
          ((p.currentPage * p.itemsPerPage : ℕ) : ℤ) := by push_cast; ring
      rw [h0, hstop, jsSlice_ofNat, List.drop_zero]
    · have h0 : (0 : ℤ) = ((0 : ℕ) : ℤ) := rfl
      have hstop : (p.currentPage : ℤ) * (p.itemsPerPage : ℤ) =
          ((p.currentPage * p.itemsPerPage : ℕ) : ℤ) := by push_cast; ring
      rw [h0, hstop, jsSlice_ofNat, List.drop_zero]

/-- Witness for C8: the claim's concrete instances — 30 filtered items,
`itemsPerPage = 12`: mode `pagination` page 3 gives items `[24, 30)`, mode
`loadMore` page 2 gives items `[0, 24)`. -/
theorem sliceItems_correct_witness :
    1 ≤ (Pagination.mk 3 12 30 true .pagination false).currentPage ∧
    sliceItems (List.range 30) (Pagination.mk 3 12 30 true .pagination false) =
      specSlice (List.range 30) (Pagination.mk 3 12 30 true .pagination false) ∧
    sliceItems (List.range 30) (Pagination.mk 3 12 30 true .pagination false) =
      (List.range 30).drop 24 ∧
    sliceItems (List.range 30) (Pagination.mk 2 12 30 true .loadMore false) =
      (List.range 30).take 24 :=
  ⟨by decide, sliceItems_correct (List.range 30) _ (by decide), by decide, by decide⟩

/-! Helpers for the ingestion claim. -/

theorem processList_all_processed (l : List Item)
    (h : (l.all fun i => i.processed) = true) (n : ℕ) :
    processList l n = (l, n) := by
  induction l with
  | nil => rfl
  | cons i rest ih =>
    simp only [List.all_cons, Bool.and_eq_true] at h
    simp [processList, processItem, h.1, ih h.2]

theorem zip_self_refs (l : List Item) :
    ((l.zip l).all fun p => p.1.ref == p.2.ref) = true := by
  induction l with
  | nil => rfl
  | cons a l ih => simp [List.zip_cons_cons, ih]

/-- Counterexample to claim C4 as stated: passing the SAME raw (not yet
normalized) item array to `setItems` twice makes the second call re-normalize
and recompute anyway — normalization builds fresh objects, so the
`val === this.state.items[index]` identity guard compares fresh references
against the previously stored ones and fails; both calls notify (2
notifications, where the claim allows at most one recomputation). -/
theorem setItems_raw_twice_counterexample :
    ((setItems (setItems initialW [rawItem]) [rawItem]).notifs).length = 2 := by decide

/-- Claim C4 amended: the second `setItems` call with a reference-identical
array is a no-op only when every element already carries the `_processed`
marker (then normalization passes each element through by reference and the
identity guard succeeds): the whole world — store, storage, notifications —
is unchanged. For raw input the guard never fires (see the counterexample). -/
theorem setItems_processed_identical_noop (w : W)
    (h : (w.store.items.all fun i => i.processed) = true) :
    setItems w w.store.items = w := by
  unfold setItems
  rw [processList_all_processed _ h]
  simp [zip_self_refs]

/-- Witness for C4 (amended) at a concrete world holding one processed item. -/
theorem setItems_processed_identical_noop_witness :
    ((wProc.store.items.all fun i => i.processed) = true) ∧
    setItems wProc wProc.store.items = wProc :=
  ⟨by decide, setItems_processed_identical_noop wProc (by decide)⟩

/-- Counterexample to claim C3 as stated: `setFilter` itself performs no
full-bounds normalization for range values. With items whose `price` data
bounds are exactly `[0, 100]` (first conjunct, computed by the widget's own
bounds scan), `setFilter("filter_slider_price", [0, 100])` stores the entry
instead of leaving the key absent. -/
theorem setFilter_full_bounds_stored_counterexample :
    dataBounds [priceItem0, priceItem100] "price" = (JNum.ofN 0, JNum.ofN 100) ∧
    mapGet (setFilter wPrice "filter_slider_price"
        (some (.range (JNum.ofN 0) (JNum.ofN 100))) false).store.activeFilters
      "filter_slider_price" = some (.range (JNum.ofN 0) (JNum.ofN 100)) := by decide

/-- Claim C3 amended: `setFilter(k, [])` with an empty multi-selection leaves
`k` absent from the active filter map (for either page-reset flag); the
full-bounds normalization for range filters is performed by the range
widget's apply handler, not by `setFilter` — `handleApply` with a selection
equal to the data bounds calls `removeFilter`, so the key ends up absent. -/
theorem empty_equivalent_filters_absent (w : W) (k fk : String) (p persist : Bool)
    (mn mx dmn dmx : JNum) (h1 : JNum.beq mn dmn = true) (h2 : JNum.beq mx dmx = true) :
    mapGet (setFilter w k (some (.multi [])) p).store.activeFilters k = none ∧
    mapGet (handleApply w fk mn mx dmn dmx persist).store.activeFilters fk = none := by
  constructor
  · unfold setFilter
    cases p <;> simp [applyFilters_activeFilters, mapGet_mapDelete_self]
  · unfold handleApply
    rw [h1, h2]
    simp only [Bool.and_self, if_true]
    cases persist <;>
      · unfold removeFilter
        simp [applyFilters_activeFilters, mapGet_mapDelete_self]

/-- Witness for C3 (amended) at concrete inputs (bounds `[0, 100]`). -/
theorem empty_equivalent_filters_absent_witness :
    JNum.beq (JNum.ofN 0) (JNum.ofN 0) = true ∧
    JNum.beq (JNum.ofN 100) (JNum.ofN 100) = true ∧
    (mapGet (setFilter wPrice "filter_multi_color"
        (some (.multi [])) false).store.activeFilters "filter_multi_color" = none ∧
     mapGet (handleApply wPrice "filter_slider_price" (JNum.ofN 0) (JNum.ofN 100)
        (JNum.ofN 0) (JNum.ofN 100) true).store.activeFilters "filter_slider_price" = none) :=
  ⟨by decide, by decide,
   empty_equivalent_filters_absent wPrice "filter_multi_color" "filter_slider_price"
     false true (JNum.ofN 0) (JNum.ofN 100) (JNum.ofN 0) (JNum.ofN 100)
     (by decide) (by decide)⟩

/-! Helpers for the batching claims. -/

theorem notify_batching_eq (w : W) (h : w.store.isBatching = true) :
    notify w = { w with store := { w.store with pendingNotify := true } } := by
  unfold notify; simp [h]

theorem notify_not_batching_store (w : W) (h : w.store.isBatching = false) :
    (notify w).store = w.store := by
  unfold notify; simp [h]

theorem notify_not_batching_notifs (w : W) (h : w.store.isBatching = false) :
    (notify w).notifs = w.notifs ++ [mkSnapshot w.store] := by
  unfold notify; simp [h]

theorem notify_batching_triple (s : Store) (σ : List (String × String))
    (ns : List Snapshot) (h : s.isBatching = true) :
    (notify ⟨s, σ, ns⟩).notifs = ns ∧
    (notify ⟨s, σ, ns⟩).store.isBatching = true ∧
    (notify ⟨s, σ, ns⟩).store.pendingNotify = true := by
  rw [notify_batching_eq _ h]
  exact ⟨rfl, h, rfl⟩

theorem applyFilters_batching_triple (s : Store) (σ : List (String × String))
    (ns : List Snapshot) (h : s.isBatching = true) :
    (applyFilters ⟨s, σ, ns⟩).notifs = ns ∧
    (applyFilters ⟨s, σ, ns⟩).store.isBatching = true ∧
    (applyFilters ⟨s, σ, ns⟩).store.pendingNotify = true := by
  unfold applyFilters
  exact notify_batching_triple _ _ _ h

theorem setFilter_batching_triple (w : W) (k : String) (v : Option FilterVal)
    (p : Bool) (hb : w.store.isBatching = true) :
    (setFilter w k v p).notifs = w.notifs ∧
    (setFilter w k v p).store.isBatching = true ∧
    (setFilter w k v p).store.pendingNotify = true := by
  unfold setFilter
  cases p <;> exact applyFilters_batching_triple _ _ _ (by exact hb)

theorem removeFilter_batching_triple (w : W) (k : String) (p : Bool)
    (hb : w.store.isBatching = true) :
    (removeFilter w k p).notifs = w.notifs ∧
    (removeFilter w k p).store.isBatching = true ∧
    (removeFilter w k p).store.pendingNotify = true := by
  unfold removeFilter
  cases p <;> exact applyFilters_batching_triple _ _ _ (by exact hb)

theorem setSearch_batching_triple (w : W) (q : String) (p : Bool)
    (hb : w.store.isBatching = true) :
    (setSearch w q p).notifs = w.notifs ∧
    (setSearch w q p).store.isBatching = true ∧
    (setSearch w q p).store.pendingNotify = true := by
  unfold setSearch
  cases p <;> exact applyFilters_batching_triple _ _ _ (by exact hb)

theorem setSort_batching_triple (w : W) (f : Option String) (d : Dir) (t : SType)
    (hb : w.store.isBatching = true) :
    (setSort w f d t).notifs = w.notifs ∧
    (setSort w f d t).store.isBatching = true ∧
    (setSort w f d t).store.pendingNotify = true := by
  unfold setSort
  exact applyFilters_batching_triple _ _ _ (by exact hb)

theorem setPage_batching_triple (w : W) (n : ℕ) (hb : w.store.isBatching = true) :
    (setPage w n).notifs = w.notifs ∧
    (setPage w n).store.isBatching = true ∧
    (setPage w n).store.pendingNotify = true := by
  unfold setPage
  exact notify_batching_triple _ _ _ (by exact hb)

theorem resetFilters_batching_triple (w : W) (hb : w.store.isBatching = true) :
    (resetFilters w).notifs = w.notifs ∧
    (resetFilters w).store.isBatching = true ∧
    (resetFilters w).store.pendingNotify = true := by
  unfold resetFilters
  exact applyFilters_batching_triple _ _ _ (by exact hb)

/-- While the batching flag is raised, every plain mutator command runs its
whole mutation but only raises the pending flag: no notification is
delivered, the batching flag stays up, and no exception arises. -/
theorem runCmd_plain_batching (c : Cmd) (hc : plainMutator c = true) (w : W)
    (hb : w.store.isBatching = true) :
    (runCmd c w).2 = false ∧
    (runCmd c w).1.notifs = w.notifs ∧
    (runCmd c w).1.store.isBatching = true ∧
    (runCmd c w).1.store.pendingNotify = true := by
  cases c with
  | setF k v p =>
    have h := setFilter_batching_triple w k v p hb
    exact ⟨rfl, h.1, h.2.1, h.2.2⟩
  | removeF k p =>
    have h := removeFilter_batching_triple w k p hb
    exact ⟨rfl, h.1, h.2.1, h.2.2⟩
  | searchC q p =>
    have h := setSearch_batching_triple w q p hb
    exact ⟨rfl, h.1, h.2.1, h.2.2⟩
  | sortC f d t =>
    have h := setSort_batching_triple w f d t hb
    exact ⟨rfl, h.1, h.2.1, h.2.2⟩
  | resetC =>
    have h := resetFilters_batching_triple w hb
    exact ⟨rfl, h.1, h.2.1, h.2.2⟩
  | pageC n =>
    have h := setPage_batching_triple w n hb
    exact ⟨rfl, h.1, h.2.1, h.2.2⟩
  | itemsC l => simp [plainMutator] at hc
  | batchC cs => simp [plainMutator] at hc
  | throwC => simp [plainMutator] at hc

/-- Running a list of plain mutators under a raised batching flag: no error,
no delivery, flag stays up, and the pending flag ends raised exactly when the
list is nonempty (or was already raised). -/
theorem runCmds_plain_batching (cs : List Cmd) (h1 : (cs.all plainMutator) = true)
    (w : W) (hb : w.store.isBatching = true) :
    (runCmds cs w).2 = false ∧
    (runCmds cs w).1.notifs = w.notifs ∧
    (runCmds cs w).1.store.isBatching = true ∧
    (runCmds cs w).1.store.pendingNotify = (w.store.pendingNotify || !cs.isEmpty) := by
  induction cs generalizing w with
  | nil =>
    refine ⟨rfl, rfl, hb, ?_⟩
    show w.store.pendingNotify = _
    simp
  | cons c cs ih =>
    simp only [List.all_cons, Bool.and_eq_true] at h1
    have step := runCmd_plain_batching c h1.1 w hb
    have tail := ih h1.2 (runCmd c w).1 step.2.2.1
    have herr : (runCmds (c :: cs) w) = runCmds cs (runCmd c w).1 := by
      show (if (runCmd c w).2 = true then ((runCmd c w).1, true)
            else runCmds cs (runCmd c w).1) = runCmds cs (runCmd c w).1
      rw [step.1]
      simp
    rw [herr]
    refine ⟨tail.1, ?_, tail.2.2.1, ?_⟩
    · rw [tail.2.1, step.2.1]
    · rw [tail.2.2.2, step.2.2.2]
      simp

/-- The `batch` transition written out: raise the flag, run the body, then the
`finally` — drop the flag and, when the pending flag is up, clear it and
deliver the one coalesced notification; the body's exception status is
returned unchanged. -/
theorem runCmd_batchC (cs : List Cmd) (w : W) :
    runCmd (.batchC cs) w =
      (if (runCmds cs { w with store := { w.store with isBatching := true } }).1.store.pendingNotify then
         notify { (runCmds cs { w with store := { w.store with isBatching := true } }).1 with
                  store := { (runCmds cs { w with store := { w.store with isBatching := true } }).1.store with
                             isBatching := false, pendingNotify := false } }
       else { (runCmds cs { w with store := { w.store with isBatching := true } }).1 with
              store := { (runCmds cs { w with store := { w.store with isBatching := true } }).1.store with
                         isBatching := false } },
       (runCmds cs { w with store := { w.store with isBatching := true } }).2) := rfl

/-- Claim C2 (amended to callbacks without nested `batch` calls): wrapping a
sequence of plain mutator calls in `batch` raises no error and delivers
exactly one trailing notification whose content is the snapshot of the final
store state — and none at all when the callback performed no mutation.
(Nested `batch` calls break the coalescing: see the counterexample.) -/
theorem batch_coalesces_flat (cs : List Cmd) (w : W)
    (h1 : (cs.all plainMutator) = true)
    (hb : w.store.isBatching = false) (hp : w.store.pendingNotify = false) :
    (runCmd (.batchC cs) w).2 = false ∧
    (runCmd (.batchC cs) w).1.notifs =
      (if cs.isEmpty then w.notifs
       else w.notifs ++ [mkSnapshot (runCmd (.batchC cs) w).1.store]) := by
  have inner := runCmds_plain_batching cs h1
    { w with store := { w.store with isBatching := true } } rfl
  rw [runCmd_batchC]
  have hpend := inner.2.2.2
  rw [show ({ w with store := { w.store with isBatching := true } } : W).store.pendingNotify
        = w.store.pendingNotify from rfl, hp, Bool.false_or] at hpend
  rcases hcs : cs.isEmpty with _ | _ <;> rw [hcs] at hpend <;>
    simp only [Bool.not_false, Bool.not_true] at hpend
  · -- nonempty callback: pending flag is up, the finally flushes one notify
    rw [hpend]
    simp only [if_true, hcs, Bool.false_eq_true]
    refine ⟨inner.1, ?_⟩
    rw [notify_not_batching_notifs _ rfl, notify_not_batching_store _ rfl]
    have hn : ({ (runCmds cs { w with store := { w.store with isBatching := true } }).1 with
        store := { (runCmds cs { w with store := { w.store with isBatching := true } }).1.store with
                   isBatching := false, pendingNotify := false } } : W).notifs
        = (runCmds cs { w with store := { w.store with isBatching := true } }).1.notifs := rfl
    rw [hn, inner.2.1]
    rfl
  · -- empty callback: nothing pending, nothing delivered
    rw [hpend]
    simp only [Bool.false_eq_true, if_false, hcs, if_true]
    refine ⟨inner.1, ?_⟩
    have hn : ({ (runCmds cs { w with store := { w.store with isBatching := true } }).1 with
        store := { (runCmds cs { w with store := { w.store with isBatching := true } }).1.store with
                   isBatching := false } } : W).notifs
        = (runCmds cs { w with store := { w.store with isBatching := true } }).1.notifs := rfl
    rw [hn, inner.2.1]

/-- Counterexample to claim C2 as stated: with a nested `batch` the pending
flag (not a counter) is cleared by the INNER batch's `finally`, which also
drops the batching flag and immediately delivers the pending notification
while the outer callback is still running; the outer callback's later
mutation then notifies immediately as well. The run delivers 2 notifications
(and none after the outer callback), not the claimed exactly-one-after-fn. -/
theorem batch_nested_counterexample :
    ((runCmd (.batchC [.searchC "a" false, .batchC [.searchC "b" false],
        .searchC "c" false]) initialW).1.notifs).length = 2 := by decide

/-- Witness for C2 (amended) at a concrete three-mutator callback. -/
theorem batch_coalesces_flat_witness :
    (([Cmd.setF "filter_multi_color" (some (.multi ["red"])) false,
       Cmd.searchC "red" false,
       Cmd.sortC (some "title") .asc .str].all plainMutator) = true) ∧
    initialW.store.isBatching = false ∧
    initialW.store.pendingNotify = false ∧
    ((runCmd (.batchC [Cmd.setF "filter_multi_color" (some (.multi ["red"])) false,
        Cmd.searchC "red" false, Cmd.sortC (some "title") .asc .str]) initialW).2 = false ∧
     (runCmd (.batchC [Cmd.setF "filter_multi_color" (some (.multi ["red"])) false,
        Cmd.searchC "red" false, Cmd.sortC (some "title") .asc .str]) initialW).1.notifs =
       (if ([Cmd.setF "filter_multi_color" (some (.multi ["red"])) false,
             Cmd.searchC "red" false, Cmd.sortC (some "title") .asc .str] : List Cmd).isEmpty
        then initialW.notifs
        else initialW.notifs ++ [mkSnapshot (runCmd (.batchC
          [Cmd.setF "filter_multi_color" (some (.multi ["red"])) false,
           Cmd.searchC "red" false, Cmd.sortC (some "title") .asc .str]) initialW).1.store])) :=
  ⟨by decide, by decide, by decide,
   batch_coalesces_flat _ initialW (by decide) (by decide) (by decide)⟩

theorem runCmds_append_of_no_err (cs cs' : List Cmd) (w : W)
    (h : (runCmds cs w).2 = false) :
    runCmds (cs ++ cs') w = runCmds cs' (runCmds cs w).1 := by
  induction cs generalizing w with
  | nil => rfl
  | cons c cs ih =>
    rcases hr : (runCmd c w).2 with _ | _
    · have hcons : runCmds (c :: cs) w = runCmds cs (runCmd c w).1 := by
        show (if (runCmd c w).2 = true then ((runCmd c w).1, true)
              else runCmds cs (runCmd c w).1) = _
        rw [hr]; simp
      have hcons' : runCmds ((c :: cs) ++ cs') w = runCmds (cs ++ cs') (runCmd c w).1 := by
        show (if (runCmd c w).2 = true then ((runCmd c w).1, true)
              else runCmds (cs ++ cs') (runCmd c w).1) = _
        rw [hr]; simp
      rw [hcons] at h ⊢
      rw [hcons', ih _ h]
    · exfalso
      have hcons : runCmds (c :: cs) w = ((runCmd c w).1, true) := by
        show (if (runCmd c w).2 = true then ((runCmd c w).1, true)
              else runCmds cs (runCmd c w).1) = _
        rw [hr]; simp
      rw [hcons] at h
      simp at h

theorem runCmds_single_throw (u : W) : runCmds [Cmd.throwC] u = (u, true) := rfl

/-- Claim C10: when the callback passed to `batch` throws (here: after a
sequence of plain mutator calls), the exception propagates to the caller of
`batch`, but the `finally` has already cleared the batching flag — the store
is not left in notification-suppressed mode — and, if any mutator ran before
the throw, the pending coalesced notification is delivered (it is in the
returned world, i.e. delivered before the exception reaches the caller). -/
theorem batch_throw_recovers (ms : List Cmd) (w : W)
    (h1 : (ms.all plainMutator) = true)
    (hb : w.store.isBatching = false) (hp : w.store.pendingNotify = false) :
    (runCmd (.batchC (ms ++ [.throwC])) w).2 = true ∧
    (runCmd (.batchC (ms ++ [.throwC])) w).1.store.isBatching = false ∧
    (runCmd (.batchC (ms ++ [.throwC])) w).1.notifs =
      (if ms.isEmpty then w.notifs
       else w.notifs ++ [mkSnapshot (runCmd (.batchC (ms ++ [.throwC])) w).1.store]) := by
  have inner := runCmds_plain_batching ms h1
    { w with store := { w.store with isBatching := true } } rfl
  have happ := runCmds_append_of_no_err ms [.throwC]
    { w with store := { w.store with isBatching := true } } inner.1
  rw [runCmds_single_throw] at happ
  rw [runCmd_batchC, happ]
  simp only []
  have hpend := inner.2.2.2
  rw [show ({ w with store := { w.store with isBatching := true } } : W).store.pendingNotify
        = w.store.pendingNotify from rfl, hp, Bool.false_or] at hpend
  rcases hcs : ms.isEmpty with _ | _ <;> rw [hcs] at hpend <;>
    simp only [Bool.not_false, Bool.not_true] at hpend
  · rw [hpend]
    simp only [if_true, hcs, Bool.false_eq_true]
    refine ⟨trivial, ?_, ?_⟩
    · rw [notify_not_batching_store _ rfl]
    · rw [notify_not_batching_notifs _ rfl, notify_not_batching_store _ rfl]
      have hn : ({ (runCmds ms { w with store := { w.store with isBatching := true } }).1 with
          store := { (runCmds ms { w with store := { w.store with isBatching := true } }).1.store with
                     isBatching := false, pendingNotify := false } } : W).notifs
          = (runCmds ms { w with store := { w.store with isBatching := true } }).1.notifs := rfl
      rw [hn, inner.2.1]
      rfl
  · rw [hpend]
    simp only [Bool.false_eq_true, if_false, hcs, if_true]
    refine ⟨trivial, trivial, ?_⟩
    have hn : ({ (runCmds ms { w with store := { w.store with isBatching := true } }).1 with
        store := { (runCmds ms { w with store := { w.store with isBatching := true } }).1.store with
                   isBatching := false } } : W).notifs
        = (runCmds ms { w with store := { w.store with isBatching := true } }).1.notifs := rfl
    rw [hn, inner.2.1]

/-- Witness for C10 at a concrete callback: one mutation, then a throw. -/
theorem batch_throw_recovers_witness :
    (([Cmd.searchC "red" false].all plainMutator) = true) ∧
    initialW.store.isBatching = false ∧
    initialW.store.pendingNotify = false ∧
    ((runCmd (.batchC ([Cmd.searchC "red" false] ++ [.throwC])) initialW).2 = true ∧
     (runCmd (.batchC ([Cmd.searchC "red" false] ++ [.throwC])) initialW).1.store.isBatching = false ∧
     (runCmd (.batchC ([Cmd.searchC "red" false] ++ [.throwC])) initialW).1.notifs =
       (if ([Cmd.searchC "red" false] : List Cmd).isEmpty then initialW.notifs
        else initialW.notifs ++ [mkSnapshot (runCmd (.batchC
          ([Cmd.searchC "red" false] ++ [.throwC])) initialW).1.store])) :=
  ⟨by decide, by decide, by decide,
   batch_throw_recovers [Cmd.searchC "red" false] initialW (by decide) (by decide) (by decide)⟩

/-! Helpers for the snapshot-aliasing claim. -/

theorem getD_append_lt {α : Type} (l l' : List α) (i : ℕ) (h : i < l.length) (d : α) :
    (l ++ l').getD i d = l.getD i d := by
  simp [List.getD_eq_getElem?_getD, List.getElem?_append, h]

theorem getD_append_self {α : Type} (l : List α) (x d : α) :
    (l ++ [x]).getD l.length d = x := by
  induction l with
  | nil => rfl
  | cons a l ih => simp [ih]

theorem getD_set_ne {α : Type} (l : List α) (n i : ℕ) (h : n ≠ i) (v d : α) :
    (l.set n v).getD i d = l.getD i d := by
  simp [List.getD_eq_getElem?_getD, List.getElem?_set_ne h]

namespace RefModel

/-- Counterexample to claim C1 as stated: the snapshot delivered synchronously
inside `subscribe` is only `{ ...this.state }`, so its `activeFilters` field
IS the store's internal `Map`. Writing a key through the delivered snapshot's
map changes the store's internal active-filter content, contradicting the
claimed structural independence of the subscribe-time snapshot. -/
theorem subscribeSnapshot_aliases_counterexample :
    readMap (writeMap h0 (subscribeSnapshot st0).activeFilters
        [("filter_multi_color", FilterVal.multi ["red"])]) st0.activeFilters ≠
      readMap h0 st0.activeFilters := by decide

/-- Claim C1 amended: snapshots delivered by `notify` ARE structurally
independent — `notify` clones the active-filter map, the sort config, the
pagination object and the filtered-items array into fresh cells, so writing
any content through the delivered snapshot's four container references leaves
the store's own containers exactly as they were, and a subsequent `notify`
snapshot still delivers the store's unchanged content. (Only the
subscribe-time snapshot aliases the internals; see the counterexample.) -/
theorem notifySnapshot_independent (st : StoreState) (h : Heap)
    (hm : st.activeFilters < h.maps.length) (hs : st.sortConfig < h.sorts.length)
    (ha : st.filteredItems < h.arrs.length) (hp : st.pagination < h.pags.length)
    (m : List (String × FilterVal)) (sc : SortConfig) (ar : List Item) (pg : Pagination) :
    readMap (writeMap (notifySnapshot st h).2 (notifySnapshot st h).1.activeFilters m)
        st.activeFilters = readMap h st.activeFilters ∧
    readSort (writeSort (notifySnapshot st h).2 (notifySnapshot st h).1.sortConfig sc)
        st.sortConfig = readSort h st.sortConfig ∧
    readArr (writeArr (notifySnapshot st h).2 (notifySnapshot st h).1.filteredItems ar)
        st.filteredItems = readArr h st.filteredItems ∧
    readPag (writePag (notifySnapshot st h).2 (notifySnapshot st h).1.pagination pg)
        st.pagination = readPag h st.pagination ∧
    readMap (notifySnapshot st (writeMap (notifySnapshot st h).2
          (notifySnapshot st h).1.activeFilters m)).2
        (notifySnapshot st (writeMap (notifySnapshot st h).2
          (notifySnapshot st h).1.activeFilters m)).1.activeFilters =
      readMap h st.activeFilters ∧
    readSort (notifySnapshot st (writeSort (notifySnapshot st h).2
          (notifySnapshot st h).1.sortConfig sc)).2
        (notifySnapshot st (writeSort (notifySnapshot st h).2
          (notifySnapshot st h).1.sortConfig sc)).1.sortConfig =
      readSort h st.sortConfig ∧
    readArr (notifySnapshot st (writeArr (notifySnapshot st h).2
          (notifySnapshot st h).1.filteredItems ar)).2
        (notifySnapshot st (writeArr (notifySnapshot st h).2
          (notifySnapshot st h).1.filteredItems ar)).1.filteredItems =
      readArr h st.filteredItems ∧
    readPag (notifySnapshot st (writePag (notifySnapshot st h).2
          (notifySnapshot st h).1.pagination pg)).2
        (notifySnapshot st (writePag (notifySnapshot st h).2
          (notifySnapshot st h).1.pagination pg)).1.pagination =
      readPag h st.pagination := by
  have c1 : readMap (writeMap (notifySnapshot st h).2 (notifySnapshot st h).1.activeFilters m)
      st.activeFilters = readMap h st.activeFilters := by
    show ((h.maps ++ [readMap h st.activeFilters]).set h.maps.length m).getD
      st.activeFilters [] = _
    rw [getD_set_ne _ _ _ (by omega), getD_append_lt _ _ _ hm]
    rfl
  have c2 : readSort (writeSort (notifySnapshot st h).2 (notifySnapshot st h).1.sortConfig sc)
      st.sortConfig = readSort h st.sortConfig := by
    show ((h.sorts ++ [readSort h st.sortConfig]).set h.sorts.length sc).getD
      st.sortConfig defaultSort = _
    rw [getD_set_ne _ _ _ (by omega), getD_append_lt _ _ _ hs]
    rfl
  have c3 : readArr (writeArr (notifySnapshot st h).2 (notifySnapshot st h).1.filteredItems ar)
      st.filteredItems = readArr h st.filteredItems := by
    show ((h.arrs ++ [readArr h st.filteredItems]).set h.arrs.length ar).getD
      st.filteredItems [] = _
    rw [getD_set_ne _ _ _ (by omega), getD_append_lt _ _ _ ha]
    rfl
  have c4 : readPag (writePag (notifySnapshot st h).2 (notifySnapshot st h).1.pagination pg)
      st.pagination = readPag h st.pagination := by
    show ((h.pags ++ [readPag h st.pagination]).set h.pags.length pg).getD
      st.pagination defaultPag = _
    rw [getD_set_ne _ _ _ (by omega), getD_append_lt _ _ _ hp]
    rfl
  refine ⟨c1, c2, c3, c4, ?_, ?_, ?_, ?_⟩
  · show ((writeMap (notifySnapshot st h).2 (notifySnapshot st h).1.activeFilters m).maps ++
      [readMap (writeMap (notifySnapshot st h).2 (notifySnapshot st h).1.activeFilters m)
        st.activeFilters]).getD
      (writeMap (notifySnapshot st h).2 (notifySnapshot st h).1.activeFilters m).maps.length [] = _
    rw [getD_append_self, c1]
  · show ((writeSort (notifySnapshot st h).2 (notifySnapshot st h).1.sortConfig sc).sorts ++
      [readSort (writeSort (notifySnapshot st h).2 (notifySnapshot st h).1.sortConfig sc)
        st.sortConfig]).getD
      (writeSort (notifySnapshot st h).2 (notifySnapshot st h).1.sortConfig sc).sorts.length
      defaultSort = _
    rw [getD_append_self, c2]
  · show ((writeArr (notifySnapshot st h).2 (notifySnapshot st h).1.filteredItems ar).arrs ++
      [readArr (writeArr (notifySnapshot st h).2 (notifySnapshot st h).1.filteredItems ar)
        st.filteredItems]).getD
      (writeArr (notifySnapshot st h).2 (notifySnapshot st h).1.filteredItems ar).arrs.length [] = _
    rw [getD_append_self, c3]
  · show ((writePag (notifySnapshot st h).2 (notifySnapshot st h).1.pagination pg).pags ++
      [readPag (writePag (notifySnapshot st h).2 (notifySnapshot st h).1.pagination pg)
        st.pagination]).getD
      (writePag (notifySnapshot st h).2 (notifySnapshot st h).1.pagination pg).pags.length
      defaultPag = _
    rw [getD_append_self, c4]

/-- Witness for C1 (amended) at the concrete one-cell store and heap. -/
theorem notifySnapshot_independent_witness :
    st0.activeFilters < h0.maps.length ∧ st0.sortConfig < h0.sorts.length ∧
    st0.filteredItems < h0.arrs.length ∧ st0.pagination < h0.pags.length ∧
    readMap (writeMap (notifySnapshot st0 h0).2 (notifySnapshot st0 h0).1.activeFilters
        [("filter_multi_color", FilterVal.multi ["red"])]) st0.activeFilters =
      readMap h0 st0.activeFilters :=
  ⟨by decide, by decide, by decide, by decide,
   (notifySnapshot_independent st0 h0 (by decide) (by decide) (by decide) (by decide)
     [("filter_multi_color", FilterVal.multi ["red"])] defaultSort [] defaultPag).1⟩

end RefModel
